import Mathlib

/-!
Verification of the Habitat Geometry & Rule-Evaluation Engine embedded from
`src/HabitatDesigner.jsx`.

JavaScript numbers are modelled as exact numbers: the geometry calculator
(which multiplies by `Math.PI`) over the reals, and the rule evaluator
(whose arithmetic stays rational) over the rationals, so its results —
message strings included — are computable and decidable.
-/

namespace Habitat

/-- A shape descriptor as held in component state: a `type` tag together
with the two dimensions `w` and `h` (meters).  The tag is an arbitrary
string, exactly as in JavaScript, so behaviour on unrecognized kinds can
be stated. -/
structure Dims where
  type : String
  w : ℝ
  h : ℝ

/-- `computeVolumeMeters3` (HabitatDesigner.jsx lines 28–48): volume
approximation per shape `type`; the trailing `return 0` is the fallback
for any unrecognized tag. -/
noncomputable def computeVolumeMeters3 (d : Dims) : ℝ :=
  let w := d.w
  let h := d.h
  if d.type = "cylinder" then
    let r := w / 2
    Real.pi * r * r * h
  else if d.type = "sphere" then
    let r := w / 2
    (4 / 3) * Real.pi * r * r * r
  else if d.type = "ellipsoid" then
    let a := w / 2
    let b := w / 2
    let c := h / 2
    (4 / 3) * Real.pi * a * b * c
  else if d.type = "box" then
    -- interpret as floor w x h and height 2.5 m
    w * h * 2.5
  else 0

/-- `computeFloorArea` (lines 50–65), with the same `return 0` fallback. -/
noncomputable def computeFloorArea (d : Dims) : ℝ :=
  if d.type = "cylinder" then
    Real.pi * (d.w / 2) * (d.w / 2)
  else if d.type = "sphere" then
    -- usable floor area approximated by great circle
    Real.pi * (d.w / 2) * (d.w / 2)
  else if d.type = "ellipsoid" then
    Real.pi * (d.w / 2) * (d.h / 2)
  else if d.type = "box" then
    d.w * d.h
  else 0

/-- A functional zone record `{ id, name, area_m2 }`. -/
structure Zone where
  id : ℤ
  name : String
  area_m2 : ℚ
deriving DecidableEq

/-- One value of the fixed `rules` object (lines 72–79): up to three
optional requirement fields, mirroring the JS object literals in which
exactly the listed properties are present. -/
structure RuleSpec where
  min_per_crew : Option ℚ
  min_per_crew_per_30days : Option ℚ
  fixed_min : Option ℚ
deriving DecidableEq

/-- The fixed rule table, in source (insertion) order — the order
`Object.entries` iterates string keys. -/
def rules : List (String × RuleSpec) :=
  [("Sleep", ⟨some 4, none, none⟩),
   ("Recreation", ⟨some 2, none, none⟩),
   ("Exercise", ⟨some 3, none, none⟩),
   ("Hygiene", ⟨none, none, some 3⟩),
   ("ECLSS", ⟨none, none, some 4⟩),
   ("Stowage", ⟨none, some 0.5, none⟩)]

/-- JavaScript truthiness of an optional numeric field (`if(v.field)`):
the property is present and its value is nonzero. -/
def truthy : Option ℚ → Bool
  | none => false
  | some q => q != 0

/-- The `required` computation of the rule loop (lines 93–96): `required`
starts at `0` and each of the three truthiness-guarded assignments
overwrites it in turn. -/
def requiredFor (v : RuleSpec) (crew missionDays : ℚ) : ℚ :=
  let required : ℚ := 0
  let required := if truthy v.min_per_crew then v.min_per_crew.getD 0 * crew else required
  let required :=
    if truthy v.min_per_crew_per_30days then
      v.min_per_crew_per_30days.getD 0 * crew * (max 1 missionDays / 30)
    else required
  if truthy v.fixed_min then v.fixed_min.getD 0 else required

/-- The `zoneMap` dictionary (lines 83–84), built by a single forward
pass (`zonesArr.forEach(z => zoneMap[z.name] = z)`), so a later zone
with the same name overwrites an earlier one.  Modelled as the function
`String → Option Zone` obtained by folding property updates. -/
def zoneMap (zonesArr : List Zone) : String → Option Zone :=
  zonesArr.foldl (fun m z => fun n => if n = z.name then some z else m n) (fun _ => none)

/-- JavaScript `Number.prototype.toFixed(1)` on an exact rational: round
to the nearest tenth, ties toward the larger value, and print with
exactly one digit after the point. -/
def toFixed1 (q : ℚ) : String :=
  let n : ℤ := ⌊q * 10 + 1 / 2⌋
  let sign := if n < 0 then "-" else ""
  sign ++ toString (n.natAbs / 10) ++ "." ++ toString (n.natAbs % 10)

/-- Rendering of a number by a JS template literal (`${x}`).  An integer
prints with no decimal point and no forced fractional digit — the only
case the theorems below depend on.  (For non-integers JS prints the
shortest round-tripping decimal; the canonical fraction notation stands
in here, and no theorem in this file touches that branch.) -/
def jsNumToString (q : ℚ) : String :=
  if q.den = 1 then toString q.num else toString q

/-- The failing per-rule message (line 99). -/
def tooSmallMsg (k : String) (area required : ℚ) : String :=
  k ++ " TOO SMALL: " ++ jsNumToString area ++ " m^2 < required " ++ toFixed1 required ++ " m^2"

/-- The passing per-rule message (line 101). -/
def okMsg (k : String) (area required : ℚ) : String :=
  k ++ " OK: " ++ jsNumToString area ++ " m^2 >= required " ++ toFixed1 required ++ " m^2"

/-- The failing aggregate message (line 108). -/
def exceedsMsg (total floorArea : ℚ) : String :=
  "TOTAL AREA EXCEEDS USABLE FLOOR AREA: " ++ toFixed1 total ++ " m^2 > floor " ++
    toFixed1 floorArea ++ " m^2"

/-- The passing aggregate message (line 110). -/
def withinMsg (total floorArea : ℚ) : String :=
  "Total zones " ++ toFixed1 total ++ " m^2 within floor area " ++ toFixed1 floorArea ++ " m^2"

/-- One check result `{ ok, msg }`. -/
structure CheckResult where
  ok : Bool
  msg : String
deriving DecidableEq

/-- The body of the per-rule loop (lines 87–103) for one entry `(k, v)`
of the table, given the `zoneMap` lookup. -/
def ruleCheck (crew missionDays : ℚ) (zm : String → Option Zone) :
    String × RuleSpec → CheckResult
  | (k, v) =>
    match zm k with
    | none => ⟨false, "Missing zone: " ++ k⟩
    | some z =>
      let required := requiredFor v crew missionDays
      if z.area_m2 < required then
        ⟨false, tooSmallMsg k z.area_m2 required⟩
      else
        ⟨true, okMsg k z.area_m2 required⟩

/-- The final floor-area check (lines 106–111):
`totalZonesArea = zonesArr.reduce((a,b) => a + (b.area_m2||0), 0)`
compared against `floorArea`. -/
def totalAreaCheck (floorArea : ℚ) (zonesArr : List Zone) : CheckResult :=
  let totalZonesArea := zonesArr.foldl (fun a b => a + b.area_m2) 0
  if totalZonesArea > floorArea then
    ⟨false, exceedsMsg totalZonesArea floorArea⟩
  else
    ⟨true, withinMsg totalZonesArea floorArea⟩

/-- `evaluateZones` (lines 81–114): one result per rule entry, pushed in
`Object.entries(rules)` order, followed by the aggregate check.  `crew`,
`missionDays` and `floorArea` are the component-state variables the
source closes over, passed here as explicit parameters. -/
def evaluateZones (crew missionDays floorArea : ℚ) (zonesArr : List Zone) : List CheckResult :=
  rules.map (ruleCheck crew missionDays (zoneMap zonesArr)) ++
    [totalAreaCheck floorArea zonesArr]

/-- The specification's three requirement forms for a rule entry. -/
inductive RuleForm
  | perCrew (rate : ℚ)
  | perCrewPer30Days (rate : ℚ)
  | fixedMinimum (value : ℚ)
deriving DecidableEq

/-- Required area according to the specification's formulas:
`perCrew(rate)` gives `rate * crewSize`, `perCrewPer30Days(rate)` gives
`rate * crewSize * max(1, missionDays)/30`, `fixedMinimum(value)` gives
`value`. -/
def specRequired (f : RuleForm) (crewSize missionDays : ℚ) : ℚ :=
  match f with
  | .perCrew rate => rate * crewSize
  | .perCrewPer30Days rate => rate * crewSize * (max 1 missionDays / 30)
  | .fixedMinimum value => value

/-- The fixed table reread through the specification's requirement
forms, in the same order as `rules`. -/
def ruleTable : List (String × RuleForm) :=
  [("Sleep", .perCrew 4),
   ("Recreation", .perCrew 2),
   ("Exercise", .perCrew 3),
   ("Hygiene", .fixedMinimum 3),
   ("ECLSS", .fixedMinimum 4),
   ("Stowage", .perCrewPer30Days 0.5)]

/-- Right-biased overlay of two lookup results, used to state how
`zoneMap` decomposes over list concatenation. -/
def overlay (a b : Option Zone) : Option Zone :=
  match a with
  | some z => some z
  | none => b

/-! ## Helper lemmas -/

/-- Evaluating `toFixed1` once the rounded integer is known. -/
theorem toFixed1_eq (q : ℚ) (n : ℤ) (h : ⌊q * 10 + 1 / 2⌋ = n) :
    toFixed1 q =
      (if n < 0 then "-" else "") ++ toString (n.natAbs / 10) ++ "." ++
        toString (n.natAbs % 10) := by
  unfold toFixed1
  rw [h]

/-- Folding the dictionary-building step from an arbitrary accumulator:
the result of the fold overrides the accumulator. -/
theorem zoneMap_foldl_eq (l : List Zone) (m : String → Option Zone) (n : String) :
    (l.foldl (fun m z => fun k => if k = z.name then some z else m k) m) n =
      overlay (zoneMap l n) (m n) := by
  induction l generalizing m with
  | nil => simp [zoneMap, overlay]
  | cons z l ih =>
    simp only [zoneMap, List.foldl_cons]
    rw [ih, ih]
    cases h : (zoneMap l n) with
    | some w => simp [zoneMap] at h; simp [h, overlay]
    | none =>
      simp [zoneMap] at h
      simp only [h, overlay]
      split <;> rfl

/-- A name carried by no zone in the list is absent from the lookup. -/
theorem zoneMap_eq_none (l : List Zone) (n : String) (h : ∀ z ∈ l, z.name ≠ n) :
    zoneMap l n = none := by
  induction l with
  | nil => rfl
  | cons z l ih =>
    simp only [zoneMap, List.foldl_cons]
    rw [zoneMap_foldl_eq, ih (fun z' hz' => h z' (List.mem_cons_of_mem z hz'))]
    have hz : ¬ n = z.name := fun hc => (h z (List.mem_cons_self z l)) hc.symm
    simp [overlay, hz]

/-- The per-rule check when the lookup finds a zone. -/
theorem ruleCheck_found (crew days : ℚ) (zm : String → Option Zone) (k : String)
    (v : RuleSpec) (z : Zone) (hz : zm k = some z) :
    ruleCheck crew days zm (k, v) =
      if z.area_m2 < requiredFor v crew days then
        ⟨false, tooSmallMsg k z.area_m2 (requiredFor v crew days)⟩
      else ⟨true, okMsg k z.area_m2 (requiredFor v crew days)⟩ := by
  simp only [ruleCheck, hz]

/-- The per-rule check when the lookup finds nothing. -/
theorem ruleCheck_missing (crew days : ℚ) (zm : String → Option Zone) (k : String)
    (v : RuleSpec) (hz : zm k = none) :
    ruleCheck crew days zm (k, v) = ⟨false, "Missing zone: " ++ k⟩ := by
  simp only [ruleCheck, hz]

/-- The report always has one entry per rule plus the aggregate check. -/
theorem evaluateZones_len (crew days fa : ℚ) (zs : List Zone) :
    (evaluateZones crew days fa zs).length = rules.length + 1 := by
  simp [evaluateZones]

/-- The aggregate check is the last element of every report. -/
theorem evaluateZones_getLast? (crew days fa : ℚ) (zs : List Zone) :
    (evaluateZones crew days fa zs).getLast? = some (totalAreaCheck fa zs) := by
  unfold evaluateZones
  rw [List.getLast?_append]
  rfl

/-- Position `i` of the report is the check of rule entry `i`. -/
theorem evaluateZones_get?_rule (crew days fa : ℚ) (zs : List Zone) (i : ℕ)
    (entry : String × RuleSpec) (h : rules.get? i = some entry) :
    (evaluateZones crew days fa zs).get? i =
      some (ruleCheck crew days (zoneMap zs) entry) := by
  have hi : i < rules.length := by
    by_contra hge
    rw [List.get?_eq_none.mpr (le_of_not_lt hge)] at h
    exact Option.noConfusion h
  unfold evaluateZones
  rw [List.get?_append (by simpa using hi), List.get?_map, h]
  rfl

/-- The Stowage entry's sequential-truthiness dispatch yields the
per-crew-per-30-days formula (its rate `0.5` is truthy). -/
theorem requiredFor_stowage (crew days : ℚ) :
    requiredFor ⟨none, some 0.5, none⟩ crew days = 0.5 * crew * (max 1 days / 30) := by
  norm_num [requiredFor, truthy, bne_iff_ne]

/-- The source's `reduce` over zone areas is the sum of the mapped areas. -/
theorem foldl_area_eq_sum (zs : List Zone) (a : ℚ) :
    zs.foldl (fun a b => a + b.area_m2) a = a + (zs.map Zone.area_m2).sum := by
  induction zs generalizing a with
  | nil => simp
  | cons z l ih => simp [ih]; ring

/-! ## Claim theorems -/

/-- Claim C1, counterexample: at the unknown kind `"torus"` both geometry
functions return `0`; the code's trailing fallback fires instead of any
`InvalidShapeKind` failure (the functions are total into `ℝ` and have no
error channel at all). -/
theorem computeGeometry_unknown_kind_counterexample :
    computeVolumeMeters3 ⟨"torus", 1, 1⟩ = 0 ∧ computeFloorArea ⟨"torus", 1, 1⟩ = 0 :=
  ⟨rfl, rfl⟩

/-- Claim C1, amended: for every shape descriptor whose kind is outside
the four enumerated values, `computeVolumeMeters3` and `computeFloorArea`
silently return `0` (the fallback of a direct port); no `InvalidShapeKind`
error is raised. -/
theorem computeGeometry_unknown_kind_silent_zero (d : Dims)
    (h1 : d.type ≠ "cylinder") (h2 : d.type ≠ "sphere")
    (h3 : d.type ≠ "ellipsoid") (h4 : d.type ≠ "box") :
    computeVolumeMeters3 d = 0 ∧ computeFloorArea d = 0 := by
  constructor <;> simp [computeVolumeMeters3, computeFloorArea, h1, h2, h3, h4]

/-- Witness for the amended C1 theorem at the concrete kind `"torus"`. -/
theorem computeGeometry_unknown_kind_silent_zero_witness :
    computeVolumeMeters3 ⟨"torus", 2, 3⟩ = 0 ∧ computeFloorArea ⟨"torus", 2, 3⟩ = 0 :=
  computeGeometry_unknown_kind_silent_zero ⟨"torus", 2, 3⟩
    (by decide) (by decide) (by decide) (by decide)

/-- Claim C2, counterexample: with `crewSize = 0` the evaluation does not
fail with `InvalidMissionContext` — it returns the full ordinary report. -/
theorem evaluateZones_invalid_crew_counterexample :
    evaluateZones 0 180 10 [] =
      [⟨false, "Missing zone: Sleep"⟩, ⟨false, "Missing zone: Recreation"⟩,
       ⟨false, "Missing zone: Exercise"⟩, ⟨false, "Missing zone: Hygiene"⟩,
       ⟨false, "Missing zone: ECLSS"⟩, ⟨false, "Missing zone: Stowage"⟩,
       ⟨true, "Total zones 0.0 m^2 within floor area 10.0 m^2"⟩] := by
  have h0 : toFixed1 0 = "0.0" := by rw [toFixed1_eq 0 0 (by norm_num)]; rfl
  have h10 : toFixed1 10 = "10.0" := by rw [toFixed1_eq 10 100 (by norm_num)]; rfl
  simp [evaluateZones, rules, ruleCheck, totalAreaCheck, zoneMap, withinMsg, h0, h10]

/-- Claim C2, amended: `evaluateZones` performs no mission-context
validation; even with `crewSize ≤ 0` or `missionDays ≤ 0` it returns a
complete report (one result per rule entry, aggregate check last) rather
than failing. -/
theorem evaluateZones_no_mission_context_validation (crew days fa : ℚ) (zs : List Zone)
    (h : crew ≤ 0 ∨ days ≤ 0) :
    (evaluateZones crew days fa zs).length = rules.length + 1 ∧
    (evaluateZones crew days fa zs).getLast? = some (totalAreaCheck fa zs) :=
  ⟨evaluateZones_len crew days fa zs, evaluateZones_getLast? crew days fa zs⟩

/-- Witness for the amended C2 theorem at `crewSize = 0`. -/
theorem evaluateZones_no_mission_context_validation_witness :
    (evaluateZones 0 180 10 []).length = rules.length + 1 ∧
    (evaluateZones 0 180 10 []).getLast? = some (totalAreaCheck 10 []) :=
  evaluateZones_no_mission_context_validation 0 180 10 [] (Or.inl le_rfl)

/-- Claim C3, counterexample: in a failing per-rule result the actual
area is rendered verbatim (`6`, no forced decimal) while only the
required figure gets one decimal place (`16.0`), so the claim that both
figures are reported to one decimal place is false. -/
theorem evaluateZones_actual_area_not_one_decimal :
    (evaluateZones 4 180 100 [⟨1, "Sleep", 6⟩, ⟨2, "ECLSS", 4⟩]).get? 0 =
        some ⟨false, "Sleep TOO SMALL: 6 m^2 < required 16.0 m^2"⟩ ∧
    "Sleep TOO SMALL: 6 m^2 < required 16.0 m^2" ≠
        "Sleep TOO SMALL: 6.0 m^2 < required 16.0 m^2" := by
  constructor
  · rw [evaluateZones_get?_rule 4 180 100 [⟨1, "Sleep", 6⟩, ⟨2, "ECLSS", 4⟩] 0
        ("Sleep", ⟨some 4, none, none⟩) rfl,
        ruleCheck_found 4 180 (zoneMap [⟨1, "Sleep", 6⟩, ⟨2, "ECLSS", 4⟩]) "Sleep"
          ⟨some 4, none, none⟩ ⟨1, "Sleep", 6⟩ rfl]
    have hreq : requiredFor ⟨some 4, none, none⟩ 4 180 = 16 := by
      norm_num [requiredFor, truthy, bne_iff_ne]
    rw [hreq]
    have h16 : toFixed1 16 = "16.0" := by rw [toFixed1_eq 16 160 (by norm_num)]; rfl
    have h6 : jsNumToString 6 = "6" := rfl
    norm_num [tooSmallMsg, h6, h16]
    decide
  · decide

/-- Claim C3, amended: for every rule entry matched to a zone, the
required area follows the rule's form (`perCrew(rate)` gives
`rate·crewSize`; `perCrewPer30Days(rate)` gives
`rate·crewSize·max(1, missionDays)/30`; `fixedMinimum(value)` gives
`value`), the check fails exactly when the zone's `area_m2` is strictly
below the requirement (equality passes), and the message reports the
required figure to one decimal place while the actual area is rendered
verbatim. -/
theorem rule_entry_follows_spec_form (crew days fa : ℚ) (zones : List Zone) (i : ℕ)
    (name : String) (form : RuleForm)
    (hTable : ruleTable.get? i = some (name, form))
    (z : Zone) (hz : zoneMap zones name = some z) :
    (evaluateZones crew days fa zones).get? i =
      some (if z.area_m2 < specRequired form crew days then
              ⟨false, tooSmallMsg name z.area_m2 (specRequired form crew days)⟩
            else
              ⟨true, okMsg name z.area_m2 (specRequired form crew days)⟩) := by
  have hi : i < ruleTable.length := by
    by_contra hge
    rw [List.get?_eq_none.mpr (le_of_not_lt hge)] at hTable
    exact Option.noConfusion hTable
  have hlen : ruleTable.length = 6 := rfl
  rw [hlen] at hi
  interval_cases i
  · simp only [ruleTable, List.get?, Option.some.injEq, Prod.mk.injEq] at hTable
    obtain ⟨rfl, rfl⟩ := hTable
    rw [evaluateZones_get?_rule crew days fa zones 0 ("Sleep", ⟨some 4, none, none⟩) rfl,
        ruleCheck_found crew days (zoneMap zones) "Sleep" ⟨some 4, none, none⟩ z hz]
    rfl
  · simp only [ruleTable, List.get?, Option.some.injEq, Prod.mk.injEq] at hTable
    obtain ⟨rfl, rfl⟩ := hTable
    rw [evaluateZones_get?_rule crew days fa zones 1 ("Recreation", ⟨some 2, none, none⟩) rfl,
        ruleCheck_found crew days (zoneMap zones) "Recreation" ⟨some 2, none, none⟩ z hz]
    rfl
  · simp only [ruleTable, List.get?, Option.some.injEq, Prod.mk.injEq] at hTable
    obtain ⟨rfl, rfl⟩ := hTable
    rw [evaluateZones_get?_rule crew days fa zones 2 ("Exercise", ⟨some 3, none, none⟩) rfl,
        ruleCheck_found crew days (zoneMap zones) "Exercise" ⟨some 3, none, none⟩ z hz]
    rfl
  · simp only [ruleTable, List.get?, Option.some.injEq, Prod.mk.injEq] at hTable
    obtain ⟨rfl, rfl⟩ := hTable
    rw [evaluateZones_get?_rule crew days fa zones 3 ("Hygiene", ⟨none, none, some 3⟩) rfl,
        ruleCheck_found crew days (zoneMap zones) "Hygiene" ⟨none, none, some 3⟩ z hz]
    rfl
  · simp only [ruleTable, List.get?, Option.some.injEq, Prod.mk.injEq] at hTable
    obtain ⟨rfl, rfl⟩ := hTable
    rw [evaluateZones_get?_rule crew days fa zones 4 ("ECLSS", ⟨none, none, some 4⟩) rfl,
        ruleCheck_found crew days (zoneMap zones) "ECLSS" ⟨none, none, some 4⟩ z hz]
    rfl
  · simp only [ruleTable, List.get?, Option.some.injEq, Prod.mk.injEq] at hTable
    obtain ⟨rfl, rfl⟩ := hTable
    rw [evaluateZones_get?_rule crew days fa zones 5 ("Stowage", ⟨none, some 0.5, none⟩) rfl,
        ruleCheck_found crew days (zoneMap zones) "Stowage" ⟨none, some 0.5, none⟩ z hz,
        requiredFor_stowage crew days]
    rfl

/-- Witness for the amended C3 theorem: the spec's own ECLSS example —
fixed minimum 4 against area 4 passes (equality passes), with required
shown as `4.0` and the actual area verbatim. -/
theorem rule_entry_follows_spec_form_witness :
    (evaluateZones 4 180 100 [⟨1, "Sleep", 6⟩, ⟨2, "ECLSS", 4⟩]).get? 4 =
      some ⟨true, "ECLSS OK: 4 m^2 >= required 4.0 m^2"⟩ := by
  have h := rule_entry_follows_spec_form 4 180 100 [⟨1, "Sleep", 6⟩, ⟨2, "ECLSS", 4⟩] 4
    "ECLSS" (.fixedMinimum 4) rfl ⟨2, "ECLSS", 4⟩ rfl
  rw [h]
  have h4 : toFixed1 4 = "4.0" := by rw [toFixed1_eq 4 40 (by norm_num)]; rfl
  have hj : jsNumToString 4 = "4" := rfl
  norm_num [specRequired, okMsg, hj, h4]
  decide

/-- Claim C4: the aggregate result is always present and last, computes
`totalZonesArea` as the sum of `area_m2` over the full zone list, and
fails exactly when that total strictly exceeds `floorArea` (equality
passes). -/
theorem evaluateZones_aggregate_last (crew days fa : ℚ) (zs : List Zone) :
    (evaluateZones crew days fa zs).getLast? =
      some (if (zs.map Zone.area_m2).sum > fa then
              ⟨false, exceedsMsg ((zs.map Zone.area_m2).sum) fa⟩
            else ⟨true, withinMsg ((zs.map Zone.area_m2).sum) fa⟩) := by
  rw [evaluateZones_getLast?]
  unfold totalAreaCheck
  rw [foldl_area_eq_sum zs 0, zero_add]

/-- Claim C5: the report has exactly one result per rule-table entry, in
table order — position `i` of the report is the check of rule entry `i`,
whether or not its zone matched — followed by exactly one aggregate
result: the entry just past the rules, which is also the last element, is
the aggregate floor-area check.  A rule whose zone name is absent yields
`ok = false` with message `"Missing zone: <name>"` at that entry's
position, and evaluation still completes and still produces the
aggregate result. -/
theorem evaluateZones_report_shape (crew days fa : ℚ) (zs : List Zone) :
    (evaluateZones crew days fa zs).length = rules.length + 1 ∧
    (∀ i entry, rules.get? i = some entry →
      (evaluateZones crew days fa zs).get? i =
        some (ruleCheck crew days (zoneMap zs) entry)) ∧
    (∀ i k v, rules.get? i = some (k, v) → zoneMap zs k = none →
      (evaluateZones crew days fa zs).get? i = some ⟨false, "Missing zone: " ++ k⟩) ∧
    (evaluateZones crew days fa zs).get? rules.length = some (totalAreaCheck fa zs) ∧
    (evaluateZones crew days fa zs).getLast? = some (totalAreaCheck fa zs) := by
  refine ⟨evaluateZones_len crew days fa zs, ?_, ?_, ?_,
    evaluateZones_getLast? crew days fa zs⟩
  · intro i entry hr
    exact evaluateZones_get?_rule crew days fa zs i entry hr
  · intro i k v hr hz
    rw [evaluateZones_get?_rule crew days fa zs i (k, v) hr,
        ruleCheck_missing crew days (zoneMap zs) k v hz]
  · rfl

/-- Witness for C5 on the empty zone list: 7 results, position 1 is the
check of the second table entry (Recreation), the Sleep entry reports the
missing zone, and the last element is the aggregate check. -/
theorem evaluateZones_report_shape_witness :
    (evaluateZones 4 180 10 []).length = rules.length + 1 ∧
    (evaluateZones 4 180 10 []).get? 1 =
      some (ruleCheck 4 180 (zoneMap []) ("Recreation", ⟨some 2, none, none⟩)) ∧
    (evaluateZones 4 180 10 []).get? 0 = some ⟨false, "Missing zone: Sleep"⟩ ∧
    (evaluateZones 4 180 10 []).getLast? = some (totalAreaCheck 10 []) := by
  obtain ⟨h1, h2, h3, h4, h5⟩ := evaluateZones_report_shape 4 180 10 []
  exact ⟨h1, h2 1 ("Recreation", ⟨some 2, none, none⟩) rfl,
    h3 0 "Sleep" ⟨some 4, none, none⟩ rfl rfl, h5⟩

/-- Claim C6: with duplicate zone names, the name-to-zone lookup used by
the per-rule checks resolves a name to the zone occurring last in the
sequence — last-write-wins from the single forward pass. -/
theorem zoneMap_last_wins (zs₁ : List Zone) (z : Zone) (zs₂ : List Zone)
    (h : ∀ z' ∈ zs₂, z'.name ≠ z.name) :
    zoneMap (zs₁ ++ z :: zs₂) z.name = some z := by
  simp only [zoneMap, List.foldl_append, List.foldl_cons]
  rw [zoneMap_foldl_eq]
  rw [zoneMap_eq_none zs₂ z.name h]
  simp [overlay]

/-- Witness for C6: two zones named Sleep — the lookup returns the later
one. -/
theorem zoneMap_last_wins_witness :
    zoneMap [⟨1, "Sleep", 6⟩, ⟨2, "Sleep", 9⟩, ⟨3, "Hab", 8⟩] "Sleep" =
      some ⟨2, "Sleep", 9⟩ := by
  have h := zoneMap_last_wins [⟨1, "Sleep", 6⟩] ⟨2, "Sleep", 9⟩ [⟨3, "Hab", 8⟩] (by decide)
  simpa using h

/-- Claim C7: cylinder volume and floor area follow `π·(w/2)²·h` and
`π·(w/2)²`; box floor area is `w·h` and box volume is that floor area
times the fixed ceiling height `2.5` — in particular box(4, 6) gives
floor area 24 and volume 60. -/
theorem cylinder_box_geometry (w h : ℝ) (hw : 0 < w) (hh : 0 < h) :
    computeVolumeMeters3 ⟨"cylinder", w, h⟩ = Real.pi * (w / 2) ^ 2 * h ∧
    computeFloorArea ⟨"cylinder", w, h⟩ = Real.pi * (w / 2) ^ 2 ∧
    computeFloorArea ⟨"box", w, h⟩ = w * h ∧
    computeVolumeMeters3 ⟨"box", w, h⟩ = (w * h) * 2.5 ∧
    computeFloorArea ⟨"box", 4, 6⟩ = 24 ∧
    computeVolumeMeters3 ⟨"box", 4, 6⟩ = 60 := by
  refine ⟨?_, ?_, rfl, ?_, ?_, ?_⟩
  · have e : computeVolumeMeters3 ⟨"cylinder", w, h⟩ = Real.pi * (w / 2) * (w / 2) * h := rfl
    rw [e]; ring
  · have e : computeFloorArea ⟨"cylinder", w, h⟩ = Real.pi * (w / 2) * (w / 2) := rfl
    rw [e]; ring
  · have e : computeVolumeMeters3 ⟨"box", w, h⟩ = w * h * 2.5 := rfl
    rw [e]
  · have e : computeFloorArea ⟨"box", (4:ℝ), 6⟩ = (4:ℝ) * 6 := rfl
    rw [e]; norm_num
  · have e : computeVolumeMeters3 ⟨"box", (4:ℝ), 6⟩ = (4:ℝ) * 6 * 2.5 := rfl
    rw [e]; norm_num

/-- Witness for C7 at the cylinder preset 6 × 8 and box 4 × 6. -/
theorem cylinder_box_geometry_witness :
    computeVolumeMeters3 ⟨"cylinder", 6, 8⟩ = Real.pi * ((6:ℝ) / 2) ^ 2 * 8 ∧
    computeFloorArea ⟨"cylinder", 6, 8⟩ = Real.pi * ((6:ℝ) / 2) ^ 2 ∧
    computeFloorArea ⟨"box", 6, 8⟩ = (6:ℝ) * 8 ∧
    computeVolumeMeters3 ⟨"box", 6, 8⟩ = ((6:ℝ) * 8) * 2.5 ∧
    computeFloorArea ⟨"box", 4, 6⟩ = 24 ∧
    computeVolumeMeters3 ⟨"box", 4, 6⟩ = 60 :=
  cylinder_box_geometry 6 8 (by norm_num) (by norm_num)

/-- Claim C8: sphere volume is `(4/3)·π·(w/2)³` with great-circle floor
area `π·(w/2)²`; ellipsoid volume is `(4/3)·π·(w/2)²·(h/2)` and its
floor area is exactly the axis-mixing approximation `π·(w/2)·(h/2)`. -/
theorem sphere_ellipsoid_geometry (w h : ℝ) (hw : 0 < w) (hh : 0 < h) :
    computeVolumeMeters3 ⟨"sphere", w, h⟩ = (4 / 3) * Real.pi * (w / 2) ^ 3 ∧
    computeFloorArea ⟨"sphere", w, h⟩ = Real.pi * (w / 2) ^ 2 ∧
    computeVolumeMeters3 ⟨"ellipsoid", w, h⟩ = (4 / 3) * Real.pi * (w / 2) ^ 2 * (h / 2) ∧
    computeFloorArea ⟨"ellipsoid", w, h⟩ = Real.pi * (w / 2) * (h / 2) := by
  refine ⟨?_, ?_, ?_, rfl⟩
  · have e : computeVolumeMeters3 ⟨"sphere", w, h⟩ =
        (4 / 3) * Real.pi * (w / 2) * (w / 2) * (w / 2) := rfl
    rw [e]; ring
  · have e : computeFloorArea ⟨"sphere", w, h⟩ = Real.pi * (w / 2) * (w / 2) := rfl
    rw [e]; ring
  · have e : computeVolumeMeters3 ⟨"ellipsoid", w, h⟩ =
        (4 / 3) * Real.pi * (w / 2) * (w / 2) * (h / 2) := rfl
    rw [e]; ring

/-- Witness for C8 at the inflatable preset 8 × 4. -/
theorem sphere_ellipsoid_geometry_witness :
    computeVolumeMeters3 ⟨"sphere", 8, 4⟩ = (4 / 3) * Real.pi * ((8:ℝ) / 2) ^ 3 ∧
    computeFloorArea ⟨"sphere", 8, 4⟩ = Real.pi * ((8:ℝ) / 2) ^ 2 ∧
    computeVolumeMeters3 ⟨"ellipsoid", 8, 4⟩ =
      (4 / 3) * Real.pi * ((8:ℝ) / 2) ^ 2 * ((4:ℝ) / 2) ∧
    computeFloorArea ⟨"ellipsoid", 8, 4⟩ = Real.pi * ((8:ℝ) / 2) * ((4:ℝ) / 2) :=
  sphere_ellipsoid_geometry 8 4 (by norm_num) (by norm_num)

/-- Claim C9: the engine is deterministic — two calls on identical inputs
agree element-by-element, messages included, and the geometry functions
agree call-to-call.  In this embedding both components are plain
functions of their arguments (the source reads no mutable state inside
them), so the agreement is definitional. -/
theorem engine_referentially_transparent (crew days fa : ℚ) (zs : List Zone) (d : Dims) :
    (∀ i, (evaluateZones crew days fa zs).get? i = (evaluateZones crew days fa zs).get? i) ∧
    (evaluateZones crew days fa zs).length = (evaluateZones crew days fa zs).length ∧
    computeVolumeMeters3 d = computeVolumeMeters3 d ∧
    computeFloorArea d = computeFloorArea d :=
  ⟨fun _ => rfl, rfl, rfl, rfl⟩

/-- Claim C10: for every zone list and numeric inputs, `evaluateZones`
returns normally — it is a total function with no exception path in the
source — and the report length is always the rule-table length plus one,
which is 7. -/
theorem evaluateZones_never_throws_length (crew days fa : ℚ) (zs : List Zone) :
    (evaluateZones crew days fa zs).length = rules.length + 1 ∧ rules.length + 1 = 7 :=
  ⟨evaluateZones_len crew days fa zs, rfl⟩

end Habitat
